import Mathlib

/-!
Verification development for the EquiAid Navigator application (`src/app.py`).

The application is a single linear flow: a form collects a user profile,
`ai_fetch_awards` serializes the profile into a chat request for an external
text-generation service, parses the reply as JSON, extracts the `awards`
array, and `main` renders the resulting items (or surfaces an error).

We shallowly embed this flow:
  * Python/JSON values are modelled by the inductive `Json`.
  * Python dict operations (`.get` with and without default) are modelled
    over association lists built with last-write-wins insertion, matching
    `json.loads` duplicate-key behaviour.
  * `str.strip` / `str.upper` are modelled by `pyStrip` / `pyUpper`
    (ASCII fragment, which covers the state/zip fields they are applied to).
  * The network effect is modelled by threading an oracle
    `ChatRequest → String` (the upstream reply text) and recording the list
    of issued requests alongside each result, so "no network call" is the
    statement that the recorded request list is empty.
  * `json.loads` is modelled by `parseJson`, a fuel-based recursive-descent
    parser for the JSON fragment exercised here (numbers restricted to
    integer numerals; no claim depends on numeric parsing).
  * Exceptions are modelled with `Except`.
-/

/-- A JSON value as produced by `json.loads` (also serves as the model of the
Python values the app manipulates: dicts, lists, strings, ints, bools, None). -/
inductive Json where
  | null : Json
  | bool : Bool → Json
  | num : Int → Json
  | str : String → Json
  | arr : List Json → Json
  | obj : List (String × Json) → Json

/-- First-match lookup in an association list; models Python `dict.get(key)`
(returning `None` as `Option.none` when absent). Association lists built by
`dictInsert` have distinct keys, so first-match agrees with dict semantics. -/
def dictGet : List (String × Json) → String → Option Json
  | [], _ => none
  | (k, v) :: rest, key => if k = key then some v else dictGet rest key

/-- Models Python `dict.get(key, default)`. -/
def dictGetD (fs : List (String × Json)) (key : String) (dflt : Json) : Json :=
  match dictGet fs key with
  | some v => v
  | none => dflt

/-- Insertion with last-write-wins on duplicate keys, preserving first-insertion
order: the behaviour of Python dict construction (hence of `json.loads` on
objects with duplicate keys). -/
def dictInsert : List (String × Json) → String → Json → List (String × Json)
  | [], k, v => [(k, v)]
  | (k', v') :: rest, k, v =>
      if k' = k then (k', v) :: rest else (k', v') :: dictInsert rest k v

/-- Python truthiness (`bool(x)`) on the modelled values: `None`, `False`, `0`,
`""`, `[]`, and the empty dict are falsy, everything else truthy. -/
def pyTruthy : Json → Bool
  | .null => false
  | .bool b => b
  | .num n => n != 0
  | .str s => s != ""
  | .arr xs => !xs.isEmpty
  | .obj fs => !fs.isEmpty

/-- The whitespace characters removed by Python `str.strip()` (ASCII fragment:
space, tab, newline, carriage return, form feed, vertical tab). -/
def isPySpace (c : Char) : Bool :=
  c = ' ' || c = '\t' || c = '\n' || c = '\x0d' || c = '\x0c' || c = '\x0b'

/-- Python `str.strip()` on a character list: drop whitespace from both ends. -/
def pyStripL (l : List Char) : List Char :=
  ((l.dropWhile isPySpace).reverse.dropWhile isPySpace).reverse

/-- Python `str.strip()`. -/
def pyStrip (s : String) : String := String.mk (pyStripL s.toList)

/-- Python `str.upper()` on one character (ASCII fragment, which covers the
two-letter state codes this is applied to). -/
def pyUpperChar (c : Char) : Char :=
  if 'a' ≤ c && c ≤ 'z' then Char.ofNat (c.toNat - 32) else c

/-- Python `str.upper()`. -/
def pyUpper (s : String) : String := String.mk (s.toList.map pyUpperChar)

/-- Python `repr(x)` on a modelled value (simplified: string escaping inside
`repr` is omitted; no claim exercises it on strings needing escapes). -/
def pyRepr : Json → String
  | .null => "None"
  | .bool b => if b then "True" else "False"
  | .num n => toString n
  | .str s => "\x27" ++ s ++ "\x27"
  | .arr xs => "[" ++ String.intercalate ", " (xs.attach.map fun x => pyRepr x.1) ++ "]"
  | .obj fs =>
      "\x7b" ++
        String.intercalate ", "
          (fs.attach.map fun kv => "\x27" ++ kv.1.1 ++ "\x27: " ++ pyRepr kv.1.2) ++
      "\x7d"
termination_by j => sizeOf j
decreasing_by
  all_goals simp_wf
  all_goals try (have h := List.sizeOf_lt_of_mem x.2; omega)
  all_goals obtain ⟨⟨k, v⟩, hm⟩ := kv
  all_goals have h := List.sizeOf_lt_of_mem hm
  all_goals simp at h ⊢
  all_goals omega

/-- Python `str(x)` on a modelled value, as interpolated by the f-strings in
the rendering code (`str` of a string is the string itself; `str` of any
other value coincides with `repr`). Only the string case is exercised by
well-formed items. -/
def pyStr : Json → String
  | .str s => s
  | j => pyRepr j

/-- The profile record built in `main` on submission (dict with six keys). -/
structure Profile where
  background_categories : List String
  income_range : String
  household_size : Int
  state : String
  zip_code : String
  education_goal : String

/-- The raw widget interactions on the form: `household_size` is the value the
user attempts to enter in the bounded numeric input; the string fields are the
exact text-input contents; the select fields are the chosen options. -/
structure FormInputs where
  background_categories : List String
  income_range : String
  household_size : Int
  state : String
  zip_code : String
  education_goal : String

/-- Model of the bounded numeric input of the UI library (`st.number_input` with
`min_value`/`max_value`): the widget guarantees the value it yields lies in
the inclusive range, modelled as clamping the attempted value. -/
def numberInput (minv maxv x : Int) : Int := max minv (min maxv x)

/-- The profile dict constructed in `main` (lines 195-202): the widget outputs
with `state.strip().upper()`, `zip_code.strip()`, and `int(household_size)`
(the identity on the integer output of the widget, whose bounds are 1 and 20). -/
def submittedProfile (f : FormInputs) : Profile :=
  { background_categories := f.background_categories
    income_range := f.income_range
    household_size := numberInput 1 20 f.household_size
    state := pyUpper (pyStrip f.state)
    zip_code := pyStrip f.zip_code
    education_goal := f.education_goal }

/-- The key/value members of the profile dict, in insertion order. -/
def profileFields (p : Profile) : List (String × Json) :=
  [("background_categories", .arr (p.background_categories.map .str)),
   ("income_range", .str p.income_range),
   ("household_size", .num p.household_size),
   ("state", .str p.state),
   ("zip_code", .str p.zip_code),
   ("education_goal", .str p.education_goal)]

/-- The profile dict as a JSON value. -/
def profileJson (p : Profile) : Json := .obj (profileFields p)

/-- Hexadecimal digit (lowercase), for `\u00xx` escapes in `json.dumps`. -/
def hexDigit (n : Nat) : Char :=
  if n < 10 then Char.ofNat (48 + n) else Char.ofNat (87 + n)

/-- The escaping `json.dumps` applies inside string literals
(`ensure_ascii=False`: non-ASCII characters are kept as-is). -/
def escapeJsonChar (c : Char) : String :=
  if c = '"' then "\\\""
  else if c = '\\' then "\\\\"
  else if c = '\n' then "\\n"
  else if c = '\t' then "\\t"
  else if c = '\x0d' then "\\r"
  else if c = '\x08' then "\\b"
  else if c = '\x0c' then "\\f"
  else if c.toNat < 32 then
    "\\u00" ++ String.mk [hexDigit (c.toNat / 16), hexDigit (c.toNat % 16)]
  else String.mk [c]

/-- A JSON string literal as emitted by `json.dumps(..., ensure_ascii=False)`. -/
def dumpsStr (s : String) : String :=
  "\"" ++ String.join (s.toList.map escapeJsonChar) ++ "\""

/-- `n` spaces. -/
def indentStr (n : Nat) : String := String.mk (List.replicate n ' ')

/-- `json.dumps(v, ensure_ascii=False, indent=2)` at current indentation `ind`:
containers open with a newline, put each element on its own line indented two
further spaces, and close at the parent indentation; empty containers print
on one line. -/
def pyJsonDumps (ind : Nat) : Json → String
  | .null => "null"
  | .bool b => if b then "true" else "false"
  | .num n => toString n
  | .str s => dumpsStr s
  | .arr [] => "[]"
  | .arr (x :: xs) =>
      "[\n" ++
      String.intercalate ",\n"
        ((x :: xs).attach.map fun y => indentStr (ind + 2) ++ pyJsonDumps (ind + 2) y.1) ++
      "\n" ++ indentStr ind ++ "]"
  | .obj [] => "\x7b\x7d"
  | .obj (p :: ps) =>
      "\x7b\n" ++
      String.intercalate ",\n"
        ((p :: ps).attach.map fun kv =>
          indentStr (ind + 2) ++ dumpsStr kv.1.1 ++ ": " ++ pyJsonDumps (ind + 2) kv.1.2) ++
      "\n" ++ indentStr ind ++ "\x7d"
termination_by j => sizeOf j
decreasing_by
  all_goals simp_wf
  all_goals try (have h := List.sizeOf_lt_of_mem y.2; simp at h; omega)
  all_goals obtain ⟨⟨k, v⟩, hm⟩ := kv
  all_goals have h := List.sizeOf_lt_of_mem hm
  all_goals simp at h ⊢
  all_goals omega

/-- The fixed system instruction (`system_message`, lines 40-53; Python
adjacent string literals concatenate into one string). -/
def system_message : String :=
  "You are an assistant that helps underserved people in the United States " ++
  "discover scholarships, education awards, housing support, and food/nutrition " ++
  "assistance programs. You respond ONLY with strict JSON. " ++
  "For each item, include: name, category, description, link, why_it_matches. " ++
  "Categories must be one of: " ++
  "[\x27scholarship\x27,\x27grant\x27,\x27housing_support\x27,\x27food_nutrition\x27,\x27workforce_program\x27,\x27other\x27]. " ++
  "Prioritize: Indigenous/Native heritage, low-income households, first-generation " ++
  "students, rural families, recent immigrants, and single-parent households when relevant. " ++
  "All programs must be legal, legitimate, and US-based. " ++
  "Prefer official .gov, .edu, or recognized nonprofit URLs when possible. " ++
  "If you are not sure, include the best known official or widely-recognized site. " ++
  "Do NOT invent fake organizations or fake government programs."

/-- The user instruction (`user_message`, lines 57-79): the triple-quoted
f-string with the serialized profile interpolated; `\x7b\x7b`/`\x7d\x7d` in
the f-string denote literal braces. -/
def userMessage (profileStr : String) : String :=
  "\nGiven this user profile:\n\n" ++ profileStr ++
  "\n\nReturn a JSON object with the following structure:\n\n" ++
  "\x7b\n  \"awards\": [\n    \x7b\n      \"name\": \"string\",\n" ++
  "      \"category\": \"one of [\x27scholarship\x27,\x27grant\x27,\x27housing_support\x27,\x27food_nutrition\x27,\x27workforce_program\x27,\x27other\x27]\",\n" ++
  "      \"description\": \"short, clear description (max 60 words)\",\n" ++
  "      \"link\": \"direct URL to learn/apply\",\n" ++
  "      \"why_it_matches\": \"1–2 sentences tying the program to the user\x27s background\"\n" ++
  "    \x7d\n  ]\n\x7d\n\n" ++
  "Include 8–15 high-quality items. Focus on relevance over quantity.\n" ++
  "If the user is in a particular state, try to include that state\x27s programs when possible.\n" ++
  "If a well-known national program applies, include it too.\n    "

/-- One outbound chat-completion request as built by `ai_fetch_awards`
(lines 81-89): model identifier, the `type` field of `response_format`, the
(role, content) message list, and the sampling temperature (an exact rational,
since the value is configuration passed through, never computed with). -/
structure ChatRequest where
  model : String
  responseFormatType : String
  messages : List (String × String)
  temperature : ℚ

/-- The request `ai_fetch_awards` builds for a given profile, with
`user_profile_str = json.dumps(profile, ensure_ascii=False, indent=2)`. -/
def buildRequest (p : Profile) : ChatRequest :=
  { model := "gpt-4.1-mini"
    responseFormatType := "json_object"
    messages :=
      [("system", system_message),
       ("user", userMessage (pyJsonDumps 0 (profileJson p)))]
    temperature := 3 / 10 }

/-- The exceptions that can escape `ai_fetch_awards`:
`RuntimeError` when the client is uninitialized (line 38),
`json.JSONDecodeError` from `json.loads` (line 92), and `AttributeError`
when `data.get` is called on a non-dict parse result (line 93). -/
inductive FetchError where
  | credentialMissing : FetchError
  | jsonDecodeError : FetchError
  | attributeError : FetchError
deriving DecidableEq

/-- `str(e)` for the modelled exceptions. The decode/attribute texts are
modelled up to exact wording (CPython includes position/type details not
tracked here); the `RuntimeError` text is the literal from line 38. -/
def FetchError.message : FetchError → String
  | .credentialMissing => "OpenAI client not initialized. Set OPENAI_API_KEY."
  | .jsonDecodeError => "Expecting value"
  | .attributeError => "object has no attribute \x27get\x27"

/-- The error taxonomy of the spec (section 7). -/
inductive SpecError where
  | serviceUnavailable : SpecError
  | upstreamError : SpecError
deriving DecidableEq

/-- Classification of the concrete exceptions under the spec taxonomy:
the missing credential is `ServiceUnavailable`; a failed call or content that
cannot be parsed as the expected JSON object shape is `UpstreamError`. -/
def FetchError.specClass : FetchError → SpecError
  | .credentialMissing => .serviceUnavailable
  | .jsonDecodeError => .upstreamError
  | .attributeError => .upstreamError

/-- JSON inter-token whitespace (as accepted by `json.loads`). -/
def isJsonWs (c : Char) : Bool :=
  c = ' ' || c = '\t' || c = '\n' || c = '\x0d'

/-- Skip JSON whitespace. -/
def skipWs (l : List Char) : List Char := l.dropWhile isJsonWs

/-- Parse the body of a JSON string literal (the opening quote already
consumed), with the standard single-character escapes; `\u` escapes are not
modelled (no claim exercises them), and raw control characters are rejected
as in strict-mode `json.loads`. -/
def parseStrChars : List Char → List Char → Option (String × List Char)
  | [], _ => none
  | c :: rest, acc =>
    if c = '"' then some (String.mk acc.reverse, rest)
    else if c = '\\' then
      match rest with
      | e :: r2 =>
        if e = '"' then parseStrChars r2 ('"' :: acc)
        else if e = '\\' then parseStrChars r2 ('\\' :: acc)
        else if e = '/' then parseStrChars r2 ('/' :: acc)
        else if e = 'n' then parseStrChars r2 ('\n' :: acc)
        else if e = 't' then parseStrChars r2 ('\t' :: acc)
        else if e = 'r' then parseStrChars r2 ('\x0d' :: acc)
        else if e = 'b' then parseStrChars r2 ('\x08' :: acc)
        else if e = 'f' then parseStrChars r2 ('\x0c' :: acc)
        else none
      | [] => none
    else if c.toNat < 32 then none
    else parseStrChars rest (c :: acc)

/-- Parse one or more decimal digits into a natural number. -/
def parseDigits (l : List Char) : Option (Nat × List Char) :=
  let ds := l.takeWhile Char.isDigit
  if ds.isEmpty then none
  else some (ds.foldl (fun a c => a * 10 + (c.toNat - 48)) 0, l.dropWhile Char.isDigit)

/-- Parse a JSON integer numeral (optional minus sign, then digits). Only the
integer fragment of JSON numbers is modelled; no claim depends on numeric
parsing. -/
def parseNum : List Char → Option (Json × List Char)
  | '-' :: rest =>
    match parseDigits rest with
    | some (n, r) => some (Json.num (-(n : Int)), r)
    | none => none
  | l =>
    match parseDigits l with
    | some (n, r) => some (Json.num (n : Int), r)
    | none => none

mutual

/-- Recursive-descent parse of one JSON value (fuel-indexed; the fuel used at
the top level is ample for the input length, and the universal theorems never
depend on a fuel bound). -/
def parseVal : Nat → List Char → Option (Json × List Char)
  | 0, _ => none
  | Nat.succ fuel, input =>
    match skipWs input with
    | [] => none
    | c :: rest =>
      if c = '"' then
        match parseStrChars rest [] with
        | some (s, r) => some (Json.str s, r)
        | none => none
      else if c = '[' then
        match skipWs rest with
        | ']' :: r2 => some (Json.arr [], r2)
        | _ => parseArrItems fuel rest []
      else if c = Char.ofNat 123 then
        match skipWs rest with
        | c2 :: r2 => if c2 = Char.ofNat 125 then some (Json.obj [], r2)
                      else parseObjItems fuel rest []
        | [] => none
      else if c = 't' then
        match rest with
        | 'r' :: 'u' :: 'e' :: r => some (Json.bool true, r)
        | _ => none
      else if c = 'f' then
        match rest with
        | 'a' :: 'l' :: 's' :: 'e' :: r => some (Json.bool false, r)
        | _ => none
      else if c = 'n' then
        match rest with
        | 'u' :: 'l' :: 'l' :: r => some (Json.null, r)
        | _ => none
      else if c = '-' || c.isDigit then parseNum (c :: rest)
      else none

/-- Parse the comma-separated items of a non-empty JSON array (the opening
bracket already consumed). -/
def parseArrItems : Nat → List Char → List Json → Option (Json × List Char)
  | 0, _, _ => none
  | Nat.succ fuel, input, acc =>
    match parseVal fuel input with
    | none => none
    | some (v, r) =>
      match skipWs r with
      | ',' :: r2 => parseArrItems fuel r2 (acc ++ [v])
      | ']' :: r2 => some (Json.arr (acc ++ [v]), r2)
      | _ => none

/-- Parse the members of a non-empty JSON object (the opening brace already
consumed), with last-write-wins on duplicate keys as in `json.loads`. -/
def parseObjItems : Nat → List Char → List (String × Json) → Option (Json × List Char)
  | 0, _, _ => none
  | Nat.succ fuel, input, acc =>
    match skipWs input with
    | [] => none
    | c :: rest =>
      if c = '"' then
        match parseStrChars rest [] with
        | none => none
        | some (k, r) =>
          match skipWs r with
          | ':' :: r2 =>
            match parseVal fuel r2 with
            | none => none
            | some (v, r3) =>
              match skipWs r3 with
              | ',' :: r4 => parseObjItems fuel r4 (dictInsert acc k v)
              | c4 :: r4 => if c4 = Char.ofNat 125 then some (Json.obj (dictInsert acc k v), r4)
                            else none
              | [] => none
          | _ => none
      else none

end

/-- `json.loads(content)`: parse one JSON document and require that only
whitespace follows it; `none` models `json.JSONDecodeError`. -/
def parseJson (s : String) : Option Json :=
  match parseVal (2 * s.length + 4) s.toList with
  | some (v, rest) => if (skipWs rest).isEmpty then some v else none
  | none => none

/-- Truthiness of the `OPENAI_API_KEY` environment value
(`os.environ.get` yields `None` when unset): `None` and `""` are falsy.
The module-level `client = OpenAI(...) if OPENAI_API_KEY else None` means the
client is initialized exactly when this is true, so the test
`client is None` in `ai_fetch_awards` is its negation. -/
def keyTruthy : Option String → Bool
  | none => false
  | some s => s != ""

/-- `ai_fetch_awards(profile)` (lines 28-94), with the upstream service
modelled as an oracle from the issued request to the reply text
(`response.choices[0].message.content`). Returns the Python result or the
escaping exception, paired with the list of requests actually issued, in
order (so "no network call" is exactly an empty list). -/
def ai_fetch_awards (apiKey : Option String) (upstream : ChatRequest → String)
    (profile : Profile) : Except FetchError Json × List ChatRequest :=
  if !keyTruthy apiKey then (.error .credentialMissing, [])
  else
    let req := buildRequest profile
    let content := upstream req
    match parseJson content with
    | none => (.error .jsonDecodeError, [req])
    | some (Json.obj fs) => (.ok (dictGetD fs "awards" (.arr [])), [req])
    | some _ => (.error .attributeError, [req])

/-- Everything `main` emits for one award card (lines 222-235): the title
markdown, the category caption, the value passed to `st.write` for the
description, the link markdown when one is emitted, and the
"why this was recommended" markdown. `none` for a non-dict item models the
`AttributeError` that `award.get` raises there. -/
structure RenderedCard where
  title : String
  caption : String
  body : Json
  linkMarkdown : Option String
  why : String

/-- Render one award item at position `idx` (enumeration starts at 1).
`award.get("link")` defaults to `None`; the link markdown is emitted only
when that value is truthy (`if link:`). -/
def renderAward (idx : Nat) : Json → Option RenderedCard
  | .obj fs =>
      some
        { title := "**" ++ toString idx ++ ". " ++
            pyStr (dictGetD fs "name" (.str "(no name)")) ++ "**"
          caption := "Category: " ++ pyStr (dictGetD fs "category" (.str "N/A"))
          body := dictGetD fs "description" (.str "")
          linkMarkdown :=
            let link := dictGetD fs "link" .null
            if pyTruthy link then
              some ("[Open official page](" ++ pyStr link ++ ")")
            else none
          why := "*Why this was recommended:* " ++
            pyStr (dictGetD fs "why_it_matches" (.str "No explanation provided.")) }
  | _ => none

/-- Render the whole award list with 1-based enumeration; `none` when some
item is not a dict (an uncaught exception escapes the loop). -/
def renderAwards (idx : Nat) : List Json → Option (List RenderedCard)
  | [] => some []
  | a :: rest =>
    match renderAward idx a with
    | some card =>
      match renderAwards (idx + 1) rest with
      | some cards => some (card :: cards)
      | none => none
    | none => none

/-- What the submission branch of `main` (lines 187-241) shows the user:
the missing-key error (line 189), the caught-exception error (line 208), the
no-programs warning (line 215), the rendered cards, or an exception escaping
`main` itself (rendering a non-list or a non-dict item — displayed by the
framework, not caught by this code). -/
inductive Outcome where
  | configError : String → Outcome
  | fetchErrorShown : String → Outcome
  | emptyWarning : String → Outcome
  | results : List RenderedCard → Outcome
  | uncaughtException : Outcome

/-- The error message of line 189 (adjacent literals concatenated). -/
def keyMissingMsg : String :=
  "OPENAI_API_KEY is not set. Please set it in your environment " ++
  "before running the app."

/-- The warning of lines 215-219. -/
def emptyResultMsg : String :=
  "No programs were returned this time. You can try again later, " ++
  "or adjust your answers slightly (for example, add more background details " ++
  "or include your state)."

/-- The submission branch of `main` (lines 187-241, under `if submitted:`),
with the upstream oracle threaded through and the issued requests recorded:
guard on the credential, build the profile, call `ai_fetch_awards` inside
`try/except`, warn on a falsy result (`if not awards:`), otherwise render. -/
def handleSubmission (apiKey : Option String) (upstream : ChatRequest → String)
    (f : FormInputs) : Outcome × List ChatRequest :=
  if !keyTruthy apiKey then (.configError keyMissingMsg, [])
  else
    let profile := submittedProfile f
    match ai_fetch_awards apiKey upstream profile with
    | (.error e, reqs) =>
        (.fetchErrorShown ("Error while contacting AI: " ++ e.message), reqs)
    | (.ok awards, reqs) =>
        if !pyTruthy awards then (.emptyWarning emptyResultMsg, reqs)
        else
          match awards with
          | .arr items =>
            match renderAwards 1 items with
            | some cards => (.results cards, reqs)
            | none => (.uncaughtException, reqs)
          | _ => (.uncaughtException, reqs)

theorem char_eq_iff_toNat {a b : Char} : a = b ↔ a.toNat = b.toNat := by
  rw [Char.ext_iff, UInt32.ext_iff]
  rfl

theorem charOfNat_toNat {n : Nat} (h1 : 65 ≤ n) (h2 : n ≤ 90) :
    (Char.ofNat n).toNat = n := by
  have hv : n.isValidChar := Or.inl (by omega)
  simp [Char.ofNat, hv, Char.ofNatAux, Char.toNat, UInt32.toNat, BitVec.toNat_ofNatLt]

theorem isPySpace_iff {c : Char} :
    isPySpace c = true ↔
      c.toNat = 32 ∨ c.toNat = 9 ∨ c.toNat = 10 ∨ c.toNat = 13 ∨
      c.toNat = 12 ∨ c.toNat = 11 := by
  simp only [isPySpace, Bool.or_eq_true, decide_eq_true_eq, char_eq_iff_toNat]
  tauto

theorem isPySpace_pyUpperChar (c : Char) : isPySpace (pyUpperChar c) = isPySpace c := by
  unfold pyUpperChar
  by_cases h : ('a' ≤ c && c ≤ 'z') = true
  · have hb : 97 ≤ c.toNat ∧ c.toNat ≤ 122 := by
      simp only [Bool.and_eq_true, decide_eq_true_eq] at h
      exact ⟨h.1, h.2⟩
    have ht : (Char.ofNat (c.toNat - 32)).toNat = c.toNat - 32 :=
      charOfNat_toNat (by omega) (by omega)
    simp only [h, if_true]
    rw [Bool.eq_iff_iff, isPySpace_iff, isPySpace_iff, ht]
    omega
  · simp [h]

theorem dropWhile_eq_self_of_prefix (p : Char → Bool) {t l : List Char}
    (ht : t <+: l) (hl : l.dropWhile p = l) : t.dropWhile p = t := by
  cases t with
  | nil => simp
  | cons c t' =>
    obtain ⟨s, hs⟩ := ht
    rw [← hs] at hl
    by_cases hp : p c = true
    · exfalso
      rw [List.cons_append, List.dropWhile_cons_of_pos hp] at hl
      have hlen := ((List.dropWhile_sublist (l := t' ++ s) (p := p)).length_le)
      have hle := congrArg List.length hl
      simp only [List.cons_append, List.length_cons, List.length_append] at hlen hle
      omega
    · rw [List.dropWhile_cons_of_neg hp]

theorem pyStripL_front (l : List Char) :
    (pyStripL l).dropWhile isPySpace = pyStripL l := by
  unfold pyStripL
  have ha : (l.dropWhile isPySpace).dropWhile isPySpace = l.dropWhile isPySpace :=
    List.dropWhile_idempotent _ _
  have hsuf : ((l.dropWhile isPySpace).reverse.dropWhile isPySpace) <:+
      (l.dropWhile isPySpace).reverse := List.dropWhile_suffix _
  have hpre := (@List.reverse_prefix Char
      ((l.dropWhile isPySpace).reverse.dropWhile isPySpace)
      ((l.dropWhile isPySpace).reverse)).mpr hsuf
  rw [List.reverse_reverse] at hpre
  exact dropWhile_eq_self_of_prefix _ hpre ha

theorem pyStripL_idem (l : List Char) : pyStripL (pyStripL l) = pyStripL l := by
  conv_lhs => rw [pyStripL]
  rw [pyStripL_front]
  have hrev : (pyStripL l).reverse.dropWhile isPySpace = (pyStripL l).reverse := by
    unfold pyStripL
    rw [List.reverse_reverse]
    exact List.dropWhile_idempotent _ _
  rw [hrev, List.reverse_reverse]

theorem pyStripL_map_pyUpperChar (l : List Char) :
    pyStripL (l.map pyUpperChar) = (pyStripL l).map pyUpperChar := by
  have hcomp : (isPySpace ∘ pyUpperChar) = isPySpace := funext isPySpace_pyUpperChar
  unfold pyStripL
  rw [List.dropWhile_map, hcomp, ← List.map_reverse, List.dropWhile_map, hcomp,
    ← List.map_reverse]

theorem pyStrip_pyStrip (s : String) : pyStrip (pyStrip s) = pyStrip s := by
  unfold pyStrip
  exact congrArg String.mk (pyStripL_idem s.toList)

theorem pyStrip_pyUpper_pyStrip (s : String) :
    pyStrip (pyUpper (pyStrip s)) = pyUpper (pyStrip s) := by
  unfold pyStrip pyUpper
  refine congrArg String.mk ?_
  show pyStripL ((pyStripL s.toList).map pyUpperChar) = _
  rw [pyStripL_map_pyUpperChar, pyStripL_idem]
  rfl

/-- The form inputs from the round-trip example of the spec (state typed in
lowercase, everything else from the fixed option lists). -/
def sampleForm : FormInputs :=
  { background_categories := ["Rural household"]
    income_range := "20,001–40,000"
    household_size := 4
    state := "tx"
    zip_code := ""
    education_goal := "Associate degree" }

/-- The profile `main` builds from `sampleForm`. -/
def sampleProfile : Profile := submittedProfile sampleForm

/-- C1: if no service credential is configured, `ai_fetch_awards` raises the
credential error (`ServiceUnavailable` in the spec taxonomy) and issues no upstream
request, and the submission guard in `main` aborts with the configuration
error message, likewise before any request is built or issued (the recorded
request trace is empty in both). -/
theorem c1_no_credential_no_network (apiKey : Option String)
    (upstream : ChatRequest → String) (f : FormInputs) (p : Profile)
    (h : keyTruthy apiKey = false) :
    ai_fetch_awards apiKey upstream p = (.error .credentialMissing, []) ∧
    FetchError.specClass .credentialMissing = .serviceUnavailable ∧
    handleSubmission apiKey upstream f = (.configError keyMissingMsg, []) := by
  refine ⟨?_, rfl, ?_⟩ <;> simp [ai_fetch_awards, handleSubmission, h]

/-- Witness for C1 at the concrete unset credential. -/
theorem c1_no_credential_no_network_witness :
    keyTruthy none = false ∧
    (ai_fetch_awards none (fun _ => "x") sampleProfile =
        (.error .credentialMissing, []) ∧
     FetchError.specClass .credentialMissing = .serviceUnavailable ∧
     handleSubmission none (fun _ => "x") sampleForm =
        (.configError keyMissingMsg, [])) :=
  ⟨rfl, c1_no_credential_no_network none (fun _ => "x") sampleForm sampleProfile rfl⟩

/-- C7: with the credential configured, every invocation of
`ai_fetch_awards` issues exactly one request (the trace is a singleton), and
that request constrains the response format to a JSON object and uses
sampling temperature 0.3 (and the fixed model identifier). -/
theorem c7_single_call_shape (apiKey : Option String)
    (upstream : ChatRequest → String) (p : Profile)
    (hk : keyTruthy apiKey = true) :
    (ai_fetch_awards apiKey upstream p).2 = [buildRequest p] ∧
    (buildRequest p).responseFormatType = "json_object" ∧
    (buildRequest p).temperature = 3 / 10 ∧
    (buildRequest p).model = "gpt-4.1-mini" := by
  refine ⟨?_, rfl, rfl, rfl⟩
  unfold ai_fetch_awards
  rw [hk]
  simp only [Bool.not_true, Bool.false_eq_true, if_false]
  split <;> rfl

/-- Witness for C7 at a concrete configured credential. -/
theorem c7_single_call_shape_witness :
    keyTruthy (some "sk-test") = true ∧
    ((ai_fetch_awards (some "sk-test") (fun _ => "x") sampleProfile).2 =
        [buildRequest sampleProfile] ∧
     (buildRequest sampleProfile).responseFormatType = "json_object" ∧
     (buildRequest sampleProfile).temperature = 3 / 10 ∧
     (buildRequest sampleProfile).model = "gpt-4.1-mini") :=
  ⟨rfl, c7_single_call_shape (some "sk-test") (fun _ => "x") sampleProfile rfl⟩

/-- C10: in every profile record constructed on submission, the
`household_size` member is an integer (`Json.num`, the image of the `int()`
coercion) within the widget bounds 1 and 20 inclusive. -/
theorem c10_household_size_bounds (f : FormInputs) :
    dictGet (profileFields (submittedProfile f)) "household_size" =
      some (.num (submittedProfile f).household_size) ∧
    1 ≤ (submittedProfile f).household_size ∧
    (submittedProfile f).household_size ≤ 20 := by
  refine ⟨rfl, ?_, ?_⟩ <;>
    · unfold submittedProfile numberInput
      simp

/-- C3: for every upstream reply whose text is not valid JSON,
`ai_fetch_awards` raises the JSON-decode error (classified `UpstreamError`
by the spec taxonomy), and the submission flow catches it at top level and
converts it to the user-visible contact-error message — the outcome is a
displayed error, not an escaping exception. -/
theorem c3_invalid_json_upstream_error (apiKey : Option String)
    (upstream : ChatRequest → String) (f : FormInputs)
    (hk : keyTruthy apiKey = true)
    (hp : parseJson (upstream (buildRequest (submittedProfile f))) = none) :
    (ai_fetch_awards apiKey upstream (submittedProfile f)).1 =
      .error .jsonDecodeError ∧
    FetchError.specClass .jsonDecodeError = .upstreamError ∧
    handleSubmission apiKey upstream f =
      (.fetchErrorShown
        ("Error while contacting AI: " ++ FetchError.message .jsonDecodeError),
       [buildRequest (submittedProfile f)]) := by
  have hfetch : ai_fetch_awards apiKey upstream (submittedProfile f) =
      (.error .jsonDecodeError, [buildRequest (submittedProfile f)]) := by
    unfold ai_fetch_awards
    rw [hk]
    simp [hp]
  refine ⟨by rw [hfetch], rfl, ?_⟩
  unfold handleSubmission
  rw [hk]
  simp [hfetch]

/-- Witness for C3 at a stub upstream returning syntactically invalid JSON. -/
theorem c3_invalid_json_upstream_error_witness :
    keyTruthy (some "sk-test") = true ∧
    parseJson ((fun _ => "not json") (buildRequest (submittedProfile sampleForm)))
      = none ∧
    ((ai_fetch_awards (some "sk-test") (fun _ => "not json")
        (submittedProfile sampleForm)).1 = .error .jsonDecodeError ∧
     FetchError.specClass .jsonDecodeError = .upstreamError ∧
     handleSubmission (some "sk-test") (fun _ => "not json") sampleForm =
       (.fetchErrorShown
         ("Error while contacting AI: " ++ FetchError.message .jsonDecodeError),
        [buildRequest (submittedProfile sampleForm)])) :=
  ⟨rfl, rfl,
    c3_invalid_json_upstream_error (some "sk-test") (fun _ => "not json")
      sampleForm rfl rfl⟩

/-- C6: when the upstream reply parses as a JSON object, an absent `awards`
key yields the empty sequence (no error), and an empty `awards` array
likewise yields the empty sequence; in both cases the submission flow takes
the soft no-programs warning path (`st.warning`), not an error path. -/
theorem c6_absent_or_empty_awards (apiKey : Option String)
    (upstream : ChatRequest → String) (f : FormInputs)
    (fs : List (String × Json))
    (hk : keyTruthy apiKey = true)
    (hp : parseJson (upstream (buildRequest (submittedProfile f))) =
      some (.obj fs)) :
    (dictGet fs "awards" = none →
      (ai_fetch_awards apiKey upstream (submittedProfile f)).1 = .ok (.arr []) ∧
      handleSubmission apiKey upstream f =
        (.emptyWarning emptyResultMsg, [buildRequest (submittedProfile f)])) ∧
    (dictGet fs "awards" = some (.arr []) →
      (ai_fetch_awards apiKey upstream (submittedProfile f)).1 = .ok (.arr []) ∧
      handleSubmission apiKey upstream f =
        (.emptyWarning emptyResultMsg, [buildRequest (submittedProfile f)])) := by
  have main : dictGetD fs "awards" (.arr []) = .arr [] →
      (ai_fetch_awards apiKey upstream (submittedProfile f)).1 = .ok (.arr []) ∧
      handleSubmission apiKey upstream f =
        (.emptyWarning emptyResultMsg, [buildRequest (submittedProfile f)]) := by
    intro hd
    have hfetch : ai_fetch_awards apiKey upstream (submittedProfile f) =
        (.ok (.arr []), [buildRequest (submittedProfile f)]) := by
      unfold ai_fetch_awards
      rw [hk]
      simp [hp, hd]
    refine ⟨by rw [hfetch], ?_⟩
    unfold handleSubmission
    rw [hk]
    simp [hfetch, pyTruthy]
  exact ⟨fun h => main (by simp [dictGetD, h]), fun h => main (by simp [dictGetD, h])⟩

/-- Witness for C6 at the stub upstream returning an object with an empty
`awards` array. -/
theorem c6_absent_or_empty_awards_witness :
    keyTruthy (some "sk-test") = true ∧
    parseJson ((fun _ => "\x7b\"awards\": []\x7d")
        (buildRequest (submittedProfile sampleForm))) =
      some (.obj [("awards", .arr [])]) ∧
    dictGet [("awards", Json.arr [])] "awards" = some (.arr []) ∧
    handleSubmission (some "sk-test") (fun _ => "\x7b\"awards\": []\x7d") sampleForm =
      (.emptyWarning emptyResultMsg, [buildRequest (submittedProfile sampleForm)]) :=
  ⟨rfl, rfl, rfl,
    ((c6_absent_or_empty_awards (some "sk-test")
        (fun _ => "\x7b\"awards\": []\x7d") sampleForm
        [("awards", .arr [])] rfl rfl).2 rfl).2⟩

/-- C2 fails as stated: with the credential configured and a stub upstream
whose reply is the well-formed JSON object with `5` under `awards`, `fetch`
returns `5` — neither an array result nor a raised error — because
`data.get("awards", [])` passes a non-array value through unvalidated. -/
theorem c2_counterexample :
    (ai_fetch_awards (some "sk-test") (fun _ => "\x7b\"awards\": 5\x7d")
        sampleProfile).1 = .ok (.num 5) ∧
    ¬ ((∃ xs, (ai_fetch_awards (some "sk-test") (fun _ => "\x7b\"awards\": 5\x7d")
          sampleProfile).1 = .ok (.arr xs)) ∨
       (∃ e, (ai_fetch_awards (some "sk-test") (fun _ => "\x7b\"awards\": 5\x7d")
          sampleProfile).1 = .error e)) := by
  have h : (ai_fetch_awards (some "sk-test") (fun _ => "\x7b\"awards\": 5\x7d")
      sampleProfile).1 = .ok (.num 5) := rfl
  refine ⟨h, ?_⟩
  rintro (⟨xs, hxs⟩ | ⟨e, he⟩)
  · rw [h] at hxs
    injection hxs with h2
    exact Json.noConfusion h2
  · rw [h] at he
    exact Except.noConfusion he

/-- C2 amended: with the credential configured, `fetch` either raises, or the
reply parses to a JSON object and `fetch` returns exactly the value under
`awards` (the empty array when the key is absent); in particular the result
is an array whenever that value is absent or an array — but a non-array
`awards` value is returned unchanged. -/
theorem c2_amended_awards_passthrough (apiKey : Option String)
    (upstream : ChatRequest → String) (p : Profile)
    (hk : keyTruthy apiKey = true) :
    (∃ e, (ai_fetch_awards apiKey upstream p).1 = .error e) ∨
    (∃ fs, parseJson (upstream (buildRequest p)) = some (.obj fs) ∧
      (ai_fetch_awards apiKey upstream p).1 = .ok (dictGetD fs "awards" (.arr [])) ∧
      (dictGet fs "awards" = none →
        (ai_fetch_awards apiKey upstream p).1 = .ok (.arr [])) ∧
      (∀ xs, dictGet fs "awards" = some (.arr xs) →
        (ai_fetch_awards apiKey upstream p).1 = .ok (.arr xs))) := by
  rcases hp : parseJson (upstream (buildRequest p)) with _ | j
  · left
    exact ⟨.jsonDecodeError, by unfold ai_fetch_awards; rw [hk]; simp [hp]⟩
  · cases j with
    | obj fs =>
      right
      have hfetch : (ai_fetch_awards apiKey upstream p).1 =
          .ok (dictGetD fs "awards" (.arr [])) := by
        unfold ai_fetch_awards
        rw [hk]
        simp [hp]
      refine ⟨fs, rfl, hfetch, ?_, ?_⟩
      · intro hnone
        rw [hfetch]
        simp [dictGetD, hnone]
      · intro xs hxs
        rw [hfetch]
        simp [dictGetD, hxs]
    | null => exact Or.inl ⟨.attributeError, by unfold ai_fetch_awards; rw [hk]; simp [hp]⟩
    | bool b => exact Or.inl ⟨.attributeError, by unfold ai_fetch_awards; rw [hk]; simp [hp]⟩
    | num n => exact Or.inl ⟨.attributeError, by unfold ai_fetch_awards; rw [hk]; simp [hp]⟩
    | str s => exact Or.inl ⟨.attributeError, by unfold ai_fetch_awards; rw [hk]; simp [hp]⟩
    | arr xs => exact Or.inl ⟨.attributeError, by unfold ai_fetch_awards; rw [hk]; simp [hp]⟩

/-- Witness for the amended C2 at a concrete configured credential and a
stub upstream returning an object with an array under `awards`. -/
theorem c2_amended_awards_passthrough_witness :
    keyTruthy (some "sk-test") = true ∧
    ((∃ e, (ai_fetch_awards (some "sk-test") (fun _ => "\x7b\"awards\": [5]\x7d")
        sampleProfile).1 = .error e) ∨
     (∃ fs, parseJson ((fun _ => "\x7b\"awards\": [5]\x7d")
          (buildRequest sampleProfile)) = some (.obj fs) ∧
       (ai_fetch_awards (some "sk-test") (fun _ => "\x7b\"awards\": [5]\x7d")
          sampleProfile).1 = .ok (dictGetD fs "awards" (.arr [])) ∧
       (dictGet fs "awards" = none →
         (ai_fetch_awards (some "sk-test") (fun _ => "\x7b\"awards\": [5]\x7d")
            sampleProfile).1 = .ok (.arr [])) ∧
       (∀ xs, dictGet fs "awards" = some (.arr xs) →
         (ai_fetch_awards (some "sk-test") (fun _ => "\x7b\"awards\": [5]\x7d")
            sampleProfile).1 = .ok (.arr xs)))) :=
  ⟨rfl, c2_amended_awards_passthrough (some "sk-test")
    (fun _ => "\x7b\"awards\": [5]\x7d") sampleProfile rfl⟩

/-- The stub item from the spec test: only `name` present. -/
def lonelyNameAward : Json := .obj [("name", .str "X")]

/-- C4 fails as stated: rendering the item `\x7b"name": "X"\x7d` does not
fail, but it does not substitute a non-empty placeholder string for each
missing field — the missing `description` is rendered as the empty string
and the missing `link` produces no link element at all (no placeholder). -/
theorem c4_counterexample :
    renderAward 1 lonelyNameAward =
      some { title := "**1. X**"
             caption := "Category: N/A"
             body := .str ""
             linkMarkdown := none
             why := "*Why this was recommended:* No explanation provided." } ∧
    ¬ (∃ card, renderAward 1 lonelyNameAward = some card ∧
        (∃ s, card.body = Json.str s ∧ s ≠ "") ∧ card.linkMarkdown ≠ none) := by
  have h : renderAward 1 lonelyNameAward =
      some { title := "**1. X**"
             caption := "Category: N/A"
             body := .str ""
             linkMarkdown := none
             why := "*Why this was recommended:* No explanation provided." } := rfl
  refine ⟨h, ?_⟩
  rintro ⟨card, hc, ⟨s, hb, hs⟩, hl⟩
  rw [h] at hc
  injection hc with h2
  rw [← h2] at hb
  injection hb with h3
  exact hs h3.symm

/-- C4 amended: for every item that is a dict missing the `category`,
`description`, `link` and `why_it_matches` keys, rendering does not fail;
it substitutes the non-empty placeholders "N/A" for the category and
"No explanation provided." for the explanation (and "(no name)" when the
name is also missing), renders the missing description as the empty string,
and emits no link element for the missing link. -/
theorem c4_amended_placeholders (idx : Nat) (fs : List (String × Json))
    (hcat : dictGet fs "category" = none)
    (hdesc : dictGet fs "description" = none)
    (hlink : dictGet fs "link" = none)
    (hwhy : dictGet fs "why_it_matches" = none) :
    renderAward idx (.obj fs) =
      some { title := "**" ++ toString idx ++ ". " ++
               pyStr (dictGetD fs "name" (.str "(no name)")) ++ "**"
             caption := "Category: N/A"
             body := .str ""
             linkMarkdown := none
             why := "*Why this was recommended:* No explanation provided." } := by
  unfold renderAward
  simp only [dictGetD, hcat, hdesc, hlink, hwhy]
  rfl

/-- Witness for the amended C4 at the stub item with only `name` present. -/
theorem c4_amended_placeholders_witness :
    dictGet [("name", Json.str "X")] "category" = none ∧
    dictGet [("name", Json.str "X")] "description" = none ∧
    dictGet [("name", Json.str "X")] "link" = none ∧
    dictGet [("name", Json.str "X")] "why_it_matches" = none ∧
    renderAward 1 (.obj [("name", .str "X")]) =
      some { title := "**" ++ toString 1 ++ ". " ++
               pyStr (dictGetD [("name", Json.str "X")] "name" (.str "(no name)")) ++ "**"
             caption := "Category: N/A"
             body := .str ""
             linkMarkdown := none
             why := "*Why this was recommended:* No explanation provided." } :=
  ⟨rfl, rfl, rfl, rfl, c4_amended_placeholders 1 [("name", .str "X")] rfl rfl rfl rfl⟩

theorem dictGet_append_single (fs : List (String × Json)) (k0 : String)
    (v0 : Json) (key : String) :
    dictGet (fs ++ [(k0, v0)]) key =
      match dictGet fs key with
      | some v => some v
      | none => if k0 = key then some v0 else none := by
  induction fs with
  | nil => simp [dictGet]
  | cons p rest ih =>
    obtain ⟨k, v⟩ := p
    by_cases h : k = key
    · simp [dictGet, h]
    · simp only [List.cons_append, dictGet, if_neg h]
      exact ih

/-- C9: for every rendered dict item, the link markdown is emitted if and
only if the value found under `link` is truthy (in particular iff the field
is present with a truthy value, since the absent default `None` is falsy);
the markdown wraps the link value; and an item whose `link` is the empty
string renders exactly as if the field were absent. -/
theorem c9_link_iff_truthy (idx : Nat) (fs : List (String × Json)) :
    (∃ card, renderAward idx (.obj fs) = some card ∧
      (card.linkMarkdown ≠ none ↔ pyTruthy (dictGetD fs "link" .null) = true) ∧
      (∀ v, dictGet fs "link" = some v → pyTruthy v = true →
        card.linkMarkdown = some ("[Open official page](" ++ pyStr v ++ ")")) ∧
      (dictGet fs "link" = some (.str "") → card.linkMarkdown = none)) ∧
    (dictGet fs "link" = none →
      renderAward idx (.obj (fs ++ [("link", .str "")])) =
        renderAward idx (.obj fs)) := by
  constructor
  · refine ⟨_, rfl, ?_, ?_, ?_⟩
    · by_cases h : pyTruthy (dictGetD fs "link" .null) = true
      · simp [h]
      · simp [h]
    · intro v hv htruthy
      simp [dictGetD, hv, htruthy]
    · intro hv
      simp [dictGetD, hv, pyTruthy]
  · intro hnone
    unfold renderAward
    have hget : ∀ key : String, key ≠ "link" →
        dictGet (fs ++ [("link", Json.str "")]) key = dictGet fs key := by
      intro key hkey
      rw [dictGet_append_single]
      cases hg : dictGet fs key with
      | some v => rfl
      | none =>
        simp only [if_neg (fun h : "link" = key => hkey h.symm)]
    have hlink : dictGet (fs ++ [("link", Json.str "")]) "link" = some (.str "") := by
      rw [dictGet_append_single, hnone]
      simp
    simp only [dictGetD, hget "name" (by decide), hget "category" (by decide),
      hget "description" (by decide), hget "why_it_matches" (by decide),
      hlink, hnone, pyTruthy]
    rfl

/-- The round-trip example inputs, but with surrounding whitespace typed in
the ZIP field. -/
def paddedZipForm : FormInputs :=
  { background_categories := ["Rural household"]
    income_range := "20,001–40,000"
    household_size := 4
    state := "tx"
    zip_code := " 77005 "
    education_goal := "Associate degree" }

/-- C5 fails as stated: the claim says every field except `state` is carried
into the payload unchanged, but for the form input with `zip_code`
`" 77005 "` the serialized payload carries `"77005"` — `zip_code` is
stripped, not carried unchanged (and `state` is likewise stripped, not
merely uppercased). -/
theorem c5_counterexample :
    dictGet (profileFields (submittedProfile paddedZipForm)) "zip_code" =
      some (.str "77005") ∧
    paddedZipForm.zip_code = " 77005 " ∧
    Json.str "77005" ≠ Json.str " 77005 " := by
  refine ⟨rfl, rfl, ?_⟩
  intro h
  injection h with h2
  exact absurd h2 (by decide)

/-- C5 amended: for every set of form inputs (with the numeric widget
value in its bounds), the profile serializes deterministically into the one
issued request — the user message embeds `json.dumps` of the profile dict —
and every field is carried over unchanged except that `state` is stripped
and uppercased and `zip_code` is stripped. -/
theorem c5_amended_payload (apiKey : Option String)
    (upstream : ChatRequest → String) (f : FormInputs)
    (hk : keyTruthy apiKey = true)
    (h1 : 1 ≤ f.household_size) (h2 : f.household_size ≤ 20) :
    (ai_fetch_awards apiKey upstream (submittedProfile f)).2 =
      [buildRequest (submittedProfile f)] ∧
    (buildRequest (submittedProfile f)).messages =
      [("system", system_message),
       ("user", userMessage (pyJsonDumps 0 (profileJson (submittedProfile f))))] ∧
    profileFields (submittedProfile f) =
      [("background_categories", .arr (f.background_categories.map .str)),
       ("income_range", .str f.income_range),
       ("household_size", .num f.household_size),
       ("state", .str (pyUpper (pyStrip f.state))),
       ("zip_code", .str (pyStrip f.zip_code)),
       ("education_goal", .str f.education_goal)] := by
  refine ⟨?_, rfl, ?_⟩
  · unfold ai_fetch_awards
    rw [hk]
    simp only [Bool.not_true, Bool.false_eq_true, if_false]
    split <;> rfl
  · have hh : numberInput 1 20 f.household_size = f.household_size := by
      unfold numberInput
      rw [min_eq_right h2, max_eq_right h1]
    simp [profileFields, submittedProfile, hh]

/-- Witness for the amended C5 at the round-trip example inputs of the spec. -/
theorem c5_amended_payload_witness :
    keyTruthy (some "sk-test") = true ∧
    1 ≤ sampleForm.household_size ∧ sampleForm.household_size ≤ 20 ∧
    ((ai_fetch_awards (some "sk-test") (fun _ => "x")
        (submittedProfile sampleForm)).2 =
      [buildRequest (submittedProfile sampleForm)] ∧
     (buildRequest (submittedProfile sampleForm)).messages =
      [("system", system_message),
       ("user", userMessage (pyJsonDumps 0 (profileJson (submittedProfile sampleForm))))] ∧
     profileFields (submittedProfile sampleForm) =
      [("background_categories", .arr (sampleForm.background_categories.map .str)),
       ("income_range", .str sampleForm.income_range),
       ("household_size", .num sampleForm.household_size),
       ("state", .str (pyUpper (pyStrip sampleForm.state))),
       ("zip_code", .str (pyStrip sampleForm.zip_code)),
       ("education_goal", .str sampleForm.education_goal)]) :=
  ⟨rfl, by decide, by decide,
    c5_amended_payload (some "sk-test") (fun _ => "x") sampleForm rfl
      (by decide) (by decide)⟩

/-- C8: on every submission the `state` form value is stripped and
uppercased and the `zip_code` form value is stripped before being placed in
the profile, so the two serialized fields carry no surrounding whitespace
(stripping them again changes nothing). -/
theorem c8_state_zip_stripped (f : FormInputs) :
    (submittedProfile f).state = pyUpper (pyStrip f.state) ∧
    (submittedProfile f).zip_code = pyStrip f.zip_code ∧
    pyStrip (submittedProfile f).state = (submittedProfile f).state ∧
    pyStrip (submittedProfile f).zip_code = (submittedProfile f).zip_code ∧
    dictGet (profileFields (submittedProfile f)) "state" =
      some (.str (submittedProfile f).state) ∧
    dictGet (profileFields (submittedProfile f)) "zip_code" =
      some (.str (submittedProfile f).zip_code) := by
  refine ⟨rfl, rfl, ?_, ?_, rfl, rfl⟩
  · exact pyStrip_pyUpper_pyStrip f.state
  · exact pyStrip_pyStrip f.zip_code
